import Mathlib

/-!
Verification of the anastasiamac/juju sources against their natural-language
specification.  The Go code is shallowly embedded: each Go function becomes a
Lean function over explicit environments (oracles standing for the external
collaborators such as the Windows service-control manager or the Kubernetes
client), Go errors become an inductive `GoError`, and fallible code returns
`Except GoError`.  The apiserver login/dispatch core is not among the source
files (only its test-export declarations are), so that part is modelled from
the specification, as marked on each such definition.
-/

/-- Go `error` values as they appear in the embedded code.  `errno n` is a
`syscall.Errno`; `traced e` is `errors.Trace(e)` (a *distinct* wrapper value,
so a Go `==` comparison of a traced error against a raw errno is false);
`annotated m e` is `errors.Annotate(e, m)`; the remaining constructors cover
the `errors.NotValidf` / `NotSupportedf` / plain-message error shapes. -/
inductive GoError where
  | errno (n : Nat)
  | traced (e : GoError)
  | annotated (msg : String) (e : GoError)
  | notValid (msg : String)
  | notSupported (msg : String)
  | msg (s : String)
deriving DecidableEq, Repr

/-- Constant `ERROR_SERVICE_DOES_NOT_EXIST syscall.Errno = 0x424` from the windows
service package. -/
def ERROR_SERVICE_DOES_NOT_EXIST : GoError := GoError.errno 0x424

namespace WinSvc

/-- Calls made on the `ServiceManagerInterface` by a `Service` method; the
embedding records them so that "without invoking the manager's Start/Stop"
is a statement about the recorded call trace. -/
inductive MgrOp where
  | start (name : String)
  | stop (name : String)
  | delete (name : String)
  | running (name : String)
  | create (name : String)
deriving DecidableEq, Repr

/-- Environment for the windows `Service` type: the result of the package
level `listServices` and the behaviour of the underlying
`ServiceManagerInterface` (each manager method as a pure oracle). -/
structure WinEnv where
  listServices : Except GoError (List String)
  runningR : String → Except GoError Bool
  startR : String → Except GoError Unit
  stopR : String → Except GoError Unit
  deleteR : String → Except GoError Unit

/-- Embeds `Service.Installed`: lists the services and searches them for the name;
a `listServices` failure is returned through `errors.Trace`. -/
def Installed (env : WinEnv) (name : String) : Except GoError Bool :=
  match env.listServices with
  | .error e => .error (GoError.traced e)
  | .ok ss => .ok (ss.contains name)

/-- Embeds `Service.Running`: `false` when not installed, otherwise the manager's
`Running`; `Installed` failures are traced.  The second component is the
manager-call trace. -/
def Running (env : WinEnv) (name : String) : Except GoError Bool × List MgrOp :=
  match Installed env name with
  | .error e => (.error (GoError.traced e), [])
  | .ok false => (.ok false, [])
  | .ok true => (env.runningR name, [MgrOp.running name])

/-- Embeds `Service.Start`: returns nil at once when `Running()` reports true,
otherwise forwards to the manager's `Start`. -/
def Start (env : WinEnv) (name : String) : Except GoError Unit × List MgrOp :=
  match Running env name with
  | (.error e, t) => (.error (GoError.traced e), t)
  | (.ok true, t) => (.ok (), t)
  | (.ok false, t) =>
    match env.startR name with
    | .error e => (.error e, t ++ [MgrOp.start name])
    | .ok _ => (.ok (), t ++ [MgrOp.start name])

/-- Embeds `Service.Stop`: returns nil at once when `Running()` reports false,
otherwise forwards to the manager's `Stop`. -/
def Stop (env : WinEnv) (name : String) : Except GoError Unit × List MgrOp :=
  match Running env name with
  | (.error e, t) => (.error (GoError.traced e), t)
  | (.ok false, t) => (.ok (), t)
  | (.ok true, t) =>
    match env.stopR name with
    | .error e => (.error e, t ++ [MgrOp.stop name])
    | .ok _ => (.ok (), t ++ [MgrOp.stop name])

/-- Embeds `Service.Remove`: nil when not installed, otherwise `Stop` (its failure
traced) then the manager's `Delete`. -/
def Remove (env : WinEnv) (name : String) : Except GoError Unit × List MgrOp :=
  match Installed env name with
  | .error e => (.error e, [])
  | .ok false => (.ok (), [])
  | .ok true =>
    match Stop env name with
    | (.error e, t) => (.error (GoError.traced e), t)
    | (.ok _, t) =>
      match env.deleteR name with
      | .error e => (.error e, t ++ [MgrOp.delete name])
      | .ok _ => (.ok (), t ++ [MgrOp.delete name])

end WinSvc

namespace SvcMgr

/-- States of a windows service as reported by `svc.Query` (package
`code.google.com/p/winsvc/svc`). -/
inductive SvcState where
  | stopped
  | startPending
  | stopPending
  | running
  | paused
deriving DecidableEq, Repr

/-- Environment for `SvcManager`: `OpenService`, the opened handle's `Query`,
`Control(svc.Stop)` and `Delete`, each as a pure oracle keyed by the service
name the manager last opened. -/
structure SvcEnv where
  openService : String → Except GoError Unit
  queryStatus : String → Except GoError SvcState
  controlStop : String → Except GoError SvcState
  svcDelete : String → Except GoError Unit

/-- Embeds `SvcManager.query`: opens the service and queries its status; both
failures are returned through `errors.Trace`. -/
def query (env : SvcEnv) (name : String) : Except GoError SvcState :=
  match env.openService name with
  | .error e => .error (GoError.traced e)
  | .ok _ =>
    match env.queryStatus name with
    | .error e => .error (GoError.traced e)
    | .ok st => .ok st

/-- Embeds `SvcManager.status`: `query` with its failure traced once more. -/
def status (env : SvcEnv) (name : String) : Except GoError SvcState :=
  match query env name with
  | .error e => .error (GoError.traced e)
  | .ok st => .ok st

/-- Embeds `SvcManager.exists`: false-and-nil when `query`'s error `==`
ERROR_SERVICE_DOES_NOT_EXIST (a comparison of the *traced* error value
against the raw errno), an error otherwise. -/
def existsS (env : SvcEnv) (name : String) : Except GoError Bool :=
  match query env name with
  | .error e =>
    if e = ERROR_SERVICE_DOES_NOT_EXIST then .ok false else .error e
  | .ok _ => .ok true

/-- Embeds `SvcManager.Running`: status is exactly `svc.Running`; `status` failures
traced. -/
def Running (env : SvcEnv) (name : String) : Except GoError Bool :=
  match status env name with
  | .error e => .error (GoError.traced e)
  | .ok st => .ok (st = SvcState.running)

/-- Embeds `SvcManager.Start`: nil when already running, otherwise the opened
handle's `Start`. -/
def Start (env : SvcEnv) (name : String) (svcStart : Except GoError Unit) :
    Except GoError Unit :=
  match Running env name with
  | .error e => .error (GoError.traced e)
  | .ok true => .ok ()
  | .ok false =>
    match svcStart with
    | .error e => .error e
    | .ok _ => .ok ()

/-- Embeds `SvcManager.Stop`: nil when not running, otherwise `Control(svc.Stop)`
with its failure traced. -/
def Stop (env : SvcEnv) (name : String) : Except GoError Unit :=
  match Running env name with
  | .error e => .error (GoError.traced e)
  | .ok false => .ok ()
  | .ok true =>
    match env.controlStop name with
    | .error e => .error (GoError.traced e)
    | .ok _ => .ok ()

/-- Embeds `SvcManager.Delete`: checks `exists`, returns nil when absent, otherwise
deletes through the opened handle, swallowing a raw
ERROR_SERVICE_DOES_NOT_EXIST from the delete itself. -/
def Delete (env : SvcEnv) (name : String) : Except GoError Unit :=
  match existsS env name with
  | .error e => .error e
  | .ok false => .ok ()
  | .ok true =>
    match env.svcDelete name with
    | .error e =>
      if e = ERROR_SERVICE_DOES_NOT_EXIST then .ok ()
      else .error (GoError.traced e)
    | .ok _ => .ok ()

/-- A concrete environment in which the service is absent: `OpenService`
reports ERROR_SERVICE_DOES_NOT_EXIST, as the OS does for an inexistent
service. -/
def absentEnv : SvcEnv where
  openService := fun _ => .error ERROR_SERVICE_DOES_NOT_EXIST
  queryStatus := fun _ => .error ERROR_SERVICE_DOES_NOT_EXIST
  controlStop := fun _ => .error ERROR_SERVICE_DOES_NOT_EXIST
  svcDelete := fun _ => .error ERROR_SERVICE_DOES_NOT_EXIST

end SvcMgr

namespace K8s

/-- Embeds `cloud.UserPassAuthType`, the auth type the provider demands. -/
def UserPassAuthType : String := "userpass"

/-- A cloud credential as consumed by `validateCloudSpec`: only its `AuthType`
is inspected there. -/
structure Credential where
  authType : String
deriving DecidableEq, Repr

/-- Embeds `environs.CloudSpec` as consumed by the provider.  The spec's own
`Validate()` method lives outside the given sources, so its result is carried
as the oracle field `validateR`. -/
structure CloudSpec where
  endpoint : String
  credential : Option Credential
  validateR : Except GoError Unit

/-- Model configuration as touched by `PrepareConfig`: the two storage-source
attributes it may default. -/
structure ModelConfig where
  blockSource : Option String
  fsSource : Option String
deriving DecidableEq, Repr

/-- Embeds `K8s_ProviderType`, the storage source installed as the default. -/
def K8s_ProviderType : String := "kubernetes"

/-- Embeds `validateCloudSpec`: the spec's own `Validate`, then `url.Parse` on the
endpoint (the parser is an oracle argument standing for `net/url`), then the
credential must be present and of userpass auth type. -/
def validateCloudSpec (urlParse : String → Except GoError Unit)
    (spec : CloudSpec) : Except GoError Unit :=
  match spec.validateR with
  | .error e => .error (GoError.traced e)
  | .ok _ =>
    match urlParse spec.endpoint with
    | .error _ => .error (GoError.notValid ("endpoint " ++ spec.endpoint))
    | .ok _ =>
      match spec.credential with
      | none => .error (GoError.notValid "missing credential")
      | some cred =>
        if cred.authType ≠ UserPassAuthType then
          .error (GoError.notSupported (cred.authType ++ " auth-type"))
        else .ok ()

/-- Embeds `kubernetesEnvironProvider.Open`: validates the cloud spec (annotating a
failure with "validating cloud spec"), then builds the broker through
`NewK8sBroker` (an oracle, as its code is outside the given sources). -/
def Open (urlParse : String → Except GoError Unit)
    (newBroker : CloudSpec → Except GoError Unit)
    (spec : CloudSpec) : Except GoError Unit :=
  match validateCloudSpec urlParse spec with
  | .error e => .error (GoError.annotated "validating cloud spec" e)
  | .ok _ => newBroker spec

/-- Embeds `kubernetesEnvironProvider.PrepareConfig`: validates the cloud spec, then
defaults the storage block/filesystem sources to the provider type when
absent. -/
def PrepareConfig (urlParse : String → Except GoError Unit)
    (spec : CloudSpec) (cfg : ModelConfig) : Except GoError ModelConfig :=
  match validateCloudSpec urlParse spec with
  | .error e => .error (GoError.annotated "validating cloud spec" e)
  | .ok _ =>
    .ok { blockSource := some (cfg.blockSource.getD K8s_ProviderType)
          fsSource := some (cfg.fsSource.getD K8s_ProviderType) }

end K8s

namespace ApiServer

/-- Modelled from the spec: `ControllerMode`, "one of {Normal, Upgrading,
RestoreInProgress, AboutToRestore}" (the apiserver implementation is not
among the given sources, only its test-export declarations). -/
inductive ControllerMode where
  | normal
  | upgrading
  | restoreInProgress
  | aboutToRestore
deriving DecidableEq, Repr

/-- Modelled from the spec: the error taxonomy of §7. -/
inductive ApiError where
  | invalidCredentials
  | entityNotFound
  | dischargeRequired (caveat : String)
  | unsupportedVersion
  | upgradeInProgress
  | restoreInProgress
  | unknownMethod
  | unknownId
  | cancelled
  | alreadyLoggedIn
deriving DecidableEq, Repr

/-- Modelled from the spec: the cluster-state store consumed through
`LookupEntity(tag) → (entity, secretHash, error)`; entities are (tag, secret)
records. -/
structure StateStore where
  entities : List (String × String)

/-- Embeds `LookupEntity`: the stored secret for a tag, when the tag is known. -/
def lookupEntity (store : StateStore) (tag : String) : Option String :=
  (store.entities.find? (fun p => p.fst = tag)).map Prod.snd

/-- Modelled from the spec: a macaroon credential — a declared identity plus
embedded third-party caveats. -/
structure Macaroon where
  identity : String
  thirdPartyCaveats : List String
deriving DecidableEq, Repr

/-- Modelled from the spec: a login credential — "either a (tag, secret) pair
or a macaroon bundle with discharge caveats". -/
inductive Credential where
  | password (tag : String) (secret : String)
  | macaroons (mac : Macaroon) (discharges : List String)
deriving DecidableEq, Repr

/-- Whether a password credential matches a stored entity: the tag is known
and the stored secret equals the presented one. -/
def passwordMatches (store : StateStore) (tag secret : String) : Bool :=
  match lookupEntity store tag with
  | none => false
  | some s => s = secret

/-- Modelled from the spec: the Credential Authenticator of §4.1.  Password
scheme: store lookup by tag, `InvalidCredentials` on unknown tag or secret
mismatch.  Macaroon scheme: an unresolved third-party caveat (one without a
matching discharge in the bundle) fails with `DischargeRequired` carrying the
caveat; otherwise the entity named by the declared identity is returned. -/
def authenticate (store : StateStore) (cred : Credential) :
    Except ApiError String :=
  match cred with
  | .password tag secret =>
    match lookupEntity store tag with
    | none => .error ApiError.invalidCredentials
    | some s =>
      if s = secret then .ok tag else .error ApiError.invalidCredentials
  | .macaroons mac discharges =>
    match mac.thirdPartyCaveats.find? (fun c => ! discharges.contains c) with
    | some c => .error (ApiError.dischargeRequired c)
    | none => .ok mac.identity

/-- Modelled from the spec: Session state — "entity (once authenticated, else
absent)" and the decorator chain chosen at login, recorded as the controller
mode read then. -/
structure Session where
  entity : Option String
  chosenMode : Option ControllerMode
deriving DecidableEq, Repr

/-- A fresh, unauthenticated Session as created on accept. -/
def Session.fresh : Session := { entity := none, chosenMode := none }

/-- Modelled from the spec: the server-side state a login consults — the
cluster-state store, the Admin Facade Registry's registered versions, and the
process-wide controller mode. -/
structure Server where
  store : StateStore
  adminVersions : List Int
  mode : ControllerMode

/-- Modelled from the spec: the Admin Facade Registry of §4.4 — selects the
login handler for a requested version, failing with `UnsupportedVersion` for
a version not in the table ("rejected, not defaulted"). -/
def selectAdminVersion (srv : Server) (version : Int) : Except ApiError Int :=
  if srv.adminVersions.contains version then .ok version
  else .error ApiError.unsupportedVersion

/-- Modelled from the spec: Login on a Session.  An already-authenticated
session fails with `AlreadyLoggedIn` and is left unchanged; otherwise the
Credential Authenticator runs, failures leave the session unchanged, and a
success records the entity and the decorator chain chosen by reading the
controller mode now. -/
def login (srv : Server) (sess : Session) (cred : Credential) :
    Session × Except ApiError String :=
  match sess.entity with
  | some _ => (sess, .error ApiError.alreadyLoggedIn)
  | none =>
    match authenticate srv.store cred with
    | .error e => (sess, .error e)
    | .ok tag =>
      ({ entity := some tag, chosenMode := some srv.mode }, .ok tag)

/-- Runs a sequence of Login attempts on a session, counting successes. -/
def runLogins (srv : Server) (sess : Session) :
    List Credential → Session × Nat
  | [] => (sess, 0)
  | c :: cs =>
    ((runLogins srv (login srv sess c).1 cs).1,
      (if (login srv sess c).2.isOk then 1 else 0) +
        (runLogins srv (login srv sess c).1 cs).2)

/-- Modelled from the spec: `allowedMethodsDuringUpgrades`, "a static,
process-wide table keyed by (facade name, method name)" of the methods
reachable while upgrading. -/
def allowedMethodsDuringUpgrades : List (String × String) :=
  [("Client", "FullStatus"),
   ("Client", "AbortCurrentUpgrade"),
   ("SSHClient", "PublicAddress"),
   ("SSHClient", "Proxy"),
   ("Pinger", "Ping")]

/-- Modelled from the spec: the methods reachable under RestoreInProgress —
"only the facades needed to query/abort an in-progress restore". -/
def allowedMethodsDuringRestore : List (String × String) :=
  [("Backups", "Restore"),
   ("Backups", "FinishRestore"),
   ("Pinger", "Ping")]

/-- Modelled from the spec: the methods reachable under AboutToRestore —
"only confirm/cancel operations". -/
def allowedMethodsAboutToRestore : List (String × String) :=
  [("Backups", "Restore"),
   ("Backups", "FinishRestore")]

/-- Modelled from the spec: the fully-capable base dispatcher — the table of
registered (facade, method) pairs with an oracle giving each method's result;
unknown pairs fail with `UnknownMethod`. -/
structure Facades where
  methods : List (String × String)
  run : String → String → String

/-- The base dispatcher's method resolution. -/
def baseDispatch (f : Facades) (facade method : String) :
    Except ApiError String :=
  if f.methods.contains (facade, method) then .ok (f.run facade method)
  else .error ApiError.unknownMethod

/-- Modelled from the spec: the Mode-Gated Root Dispatcher of §4.5 — the
decorator selected by a controller mode, applied before the base
dispatcher. -/
def dispatch (f : Facades) (mode : ControllerMode) (facade method : String) :
    Except ApiError String :=
  match mode with
  | .normal => baseDispatch f facade method
  | .upgrading =>
    if allowedMethodsDuringUpgrades.contains (facade, method) then
      baseDispatch f facade method
    else .error ApiError.upgradeInProgress
  | .restoreInProgress =>
    if allowedMethodsDuringRestore.contains (facade, method) then
      baseDispatch f facade method
    else .error ApiError.restoreInProgress
  | .aboutToRestore =>
    if allowedMethodsAboutToRestore.contains (facade, method) then
      baseDispatch f facade method
    else .error ApiError.restoreInProgress

/-- Modelled from the spec: dispatch of a call arriving on an established
connection.  The decorator chain fixed in the session at login is used; the
process-wide mode current at call time is consulted only for a connection
that never logged in. -/
def connDispatch (f : Facades) (currentMode : ControllerMode) (sess : Session)
    (facade method : String) : Except ApiError String :=
  match sess.chosenMode with
  | some m => dispatch f m facade method
  | none => dispatch f currentMode facade method

/-- Modelled from the spec: the Login Rate Limiter of §4.2, "a simple
counting semaphore" of `limit` slots. -/
structure RateLimiter where
  limit : Nat

/-- Events on the rate limiter. -/
inductive LimOp where
  | acquire
  | release
deriving DecidableEq, Repr

/-- One semaphore step on the in-flight count: `acquire` is enabled only
below the limit (a blocked login takes no step); `release` only with a login
in flight. -/
def limStep (L : RateLimiter) (inflight : Nat) : LimOp → Option Nat
  | .acquire => if inflight < L.limit then some (inflight + 1) else none
  | .release => if 0 < inflight then some (inflight - 1) else none

/-- Runs a sequence of admitted semaphore events; `none` when some event in
the sequence is blocked. -/
def runOps (L : RateLimiter) (s : Nat) : List LimOp → Option Nat
  | [] => some s
  | op :: ops =>
    match limStep L s op with
    | none => none
    | some s1 => runOps L s1 ops

end ApiServer

/-- Helper: every manager call recorded by `Service.Running` is a `Running`
query for that name. -/
theorem winsvc_running_trace (env : WinSvc.WinEnv) (name : String)
    (op : WinSvc.MgrOp) (h : op ∈ (WinSvc.Running env name).2) :
    op = WinSvc.MgrOp.running name := by
  unfold WinSvc.Running at h
  cases hI : WinSvc.Installed env name with
  | error e => rw [hI] at h; simp at h
  | ok b =>
    rw [hI] at h
    cases b with
    | false => simp at h
    | true => simpa using h

/-- C8: `Service.Start` on a service whose `Running()` check reports true
returns nil without invoking the manager's `Start`; symmetrically,
`Service.Stop` on a service whose `Running()` check reports false returns nil
without invoking the manager's `Stop`. -/
theorem service_start_stop_skip_manager (env : WinSvc.WinEnv) (name : String) :
    ((WinSvc.Running env name).1 = Except.ok true →
      (WinSvc.Start env name).1 = Except.ok () ∧
      WinSvc.MgrOp.start name ∉ (WinSvc.Start env name).2) ∧
    ((WinSvc.Running env name).1 = Except.ok false →
      (WinSvc.Stop env name).1 = Except.ok () ∧
      WinSvc.MgrOp.stop name ∉ (WinSvc.Stop env name).2) := by
  constructor
  · intro h
    have hp : WinSvc.Running env name = (Except.ok true, (WinSvc.Running env name).2) := by
      rw [Prod.ext_iff]; exact ⟨h, rfl⟩
    have hs : WinSvc.Start env name = (Except.ok (), (WinSvc.Running env name).2) := by
      unfold WinSvc.Start; rw [hp]
    refine ⟨by rw [hs], ?_⟩
    rw [hs]
    intro hmem
    exact absurd (winsvc_running_trace env name _ hmem) (by simp)
  · intro h
    have hp : WinSvc.Running env name = (Except.ok false, (WinSvc.Running env name).2) := by
      rw [Prod.ext_iff]; exact ⟨h, rfl⟩
    have hs : WinSvc.Stop env name = (Except.ok (), (WinSvc.Running env name).2) := by
      unfold WinSvc.Stop; rw [hp]
    refine ⟨by rw [hs], ?_⟩
    rw [hs]
    intro hmem
    exact absurd (winsvc_running_trace env name _ hmem) (by simp)

/-- Environment with the service installed and running (manager reports
running). -/
def winEnvRunning : WinSvc.WinEnv where
  listServices := .ok ["jujud"]
  runningR := fun _ => .ok true
  startR := fun _ => .ok ()
  stopR := fun _ => .ok ()
  deleteR := fun _ => .ok ()

/-- Environment with the service installed but stopped. -/
def winEnvStopped : WinSvc.WinEnv where
  listServices := .ok ["jujud"]
  runningR := fun _ => .ok false
  startR := fun _ => .ok ()
  stopR := fun _ => .ok ()
  deleteR := fun _ => .ok ()

/-- Witness for C8 at a running and at a stopped concrete service. -/
theorem service_start_stop_skip_manager_witness :
    ((WinSvc.Start winEnvRunning "jujud").1 = Except.ok () ∧
      WinSvc.MgrOp.start "jujud" ∉ (WinSvc.Start winEnvRunning "jujud").2) ∧
    ((WinSvc.Stop winEnvStopped "jujud").1 = Except.ok () ∧
      WinSvc.MgrOp.stop "jujud" ∉ (WinSvc.Stop winEnvStopped "jujud").2) :=
  ⟨(service_start_stop_skip_manager winEnvRunning "jujud").1 rfl,
   (service_start_stop_skip_manager winEnvStopped "jujud").2 rfl⟩

/-- C9 (code evaluated at the failing input): deleting an absent service is
an error, not nil.  With the service absent, `OpenService` reports
ERROR_SERVICE_DOES_NOT_EXIST, `query` wraps it in `errors.Trace`, and the
`err == ERROR_SERVICE_DOES_NOT_EXIST` comparison in `exists` — made against
the traced value — never fires, so `Delete` propagates the traced errno
instead of returning nil. -/
theorem svcmanager_delete_absent_errors :
    SvcMgr.Delete SvcMgr.absentEnv "jujud" =
      Except.error (GoError.traced ERROR_SERVICE_DOES_NOT_EXIST) := rfl

/-- Helper: an error result, as a decidable check. -/
def isErr {α : Type} : Except GoError α → Bool
  | .error _ => true
  | .ok _ => false

/-- Helper: a failing `validateCloudSpec` makes both `Open` and
`PrepareConfig` fail. -/
theorem k8s_validate_err_propagates
    (urlParse : String → Except GoError Unit)
    (newBroker : K8s.CloudSpec → Except GoError Unit)
    (spec : K8s.CloudSpec) (cfg : K8s.ModelConfig)
    (h : isErr (K8s.validateCloudSpec urlParse spec) = true) :
    isErr (K8s.Open urlParse newBroker spec) = true ∧
    isErr (K8s.PrepareConfig urlParse spec cfg) = true := by
  unfold K8s.Open K8s.PrepareConfig
  cases hv : K8s.validateCloudSpec urlParse spec with
  | error e => simp [isErr]
  | ok u => rw [hv] at h; simp [isErr] at h

/-- Helper: each of the three defects makes `validateCloudSpec` fail. -/
theorem k8s_validate_fails_on_defect
    (urlParse : String → Except GoError Unit) (spec : K8s.CloudSpec) :
    (isErr (urlParse spec.endpoint) = true →
      isErr (K8s.validateCloudSpec urlParse spec) = true) ∧
    (spec.credential = none →
      isErr (K8s.validateCloudSpec urlParse spec) = true) ∧
    (∀ c, spec.credential = some c → c.authType ≠ K8s.UserPassAuthType →
      isErr (K8s.validateCloudSpec urlParse spec) = true) := by
  unfold K8s.validateCloudSpec
  cases hv : spec.validateR with
  | error e => exact ⟨fun _ => rfl, fun _ => rfl, fun _ _ _ => rfl⟩
  | ok u =>
    cases hu : urlParse spec.endpoint with
    | error e => exact ⟨fun _ => rfl, fun _ => rfl, fun _ _ _ => rfl⟩
    | ok v =>
      refine ⟨fun h => by simp [isErr] at h, ?_, ?_⟩
      · intro hc; rw [hc]; rfl
      · intro c hc hne
        rw [hc]
        simp only [if_pos hne]
        rfl

/-- C10: `Open` and `PrepareConfig` both fail for a cloud spec whose endpoint
does not parse as a URL, whose credential is nil, or whose credential auth
type is not userpass; and validation succeeds only when all three conditions
hold. -/
theorem k8s_open_prepare_validation
    (urlParse : String → Except GoError Unit)
    (newBroker : K8s.CloudSpec → Except GoError Unit)
    (spec : K8s.CloudSpec) (cfg : K8s.ModelConfig) :
    (isErr (urlParse spec.endpoint) = true →
      isErr (K8s.Open urlParse newBroker spec) = true ∧
      isErr (K8s.PrepareConfig urlParse spec cfg) = true) ∧
    (spec.credential = none →
      isErr (K8s.Open urlParse newBroker spec) = true ∧
      isErr (K8s.PrepareConfig urlParse spec cfg) = true) ∧
    (∀ c, spec.credential = some c → c.authType ≠ K8s.UserPassAuthType →
      isErr (K8s.Open urlParse newBroker spec) = true ∧
      isErr (K8s.PrepareConfig urlParse spec cfg) = true) ∧
    (K8s.validateCloudSpec urlParse spec = Except.ok () →
      isErr (urlParse spec.endpoint) = false ∧
      ∃ c, spec.credential = some c ∧ c.authType = K8s.UserPassAuthType) := by
  obtain ⟨h1, h2, h3⟩ := k8s_validate_fails_on_defect urlParse spec
  refine ⟨fun h => k8s_validate_err_propagates urlParse newBroker spec cfg (h1 h),
    fun h => k8s_validate_err_propagates urlParse newBroker spec cfg (h2 h),
    fun c hc hne => k8s_validate_err_propagates urlParse newBroker spec cfg (h3 c hc hne),
    ?_⟩
  intro hok
  unfold K8s.validateCloudSpec at hok
  cases hv : spec.validateR with
  | error e => rw [hv] at hok; exact absurd hok (by simp)
  | ok u =>
    rw [hv] at hok
    cases hu : urlParse spec.endpoint with
    | error e => rw [hu] at hok; exact absurd hok (by simp)
    | ok v =>
      rw [hu] at hok
      cases hc : spec.credential with
      | none => rw [hc] at hok; exact absurd hok (by simp)
      | some c =>
        rw [hc] at hok
        dsimp only at hok
        refine ⟨rfl, c, rfl, ?_⟩
        by_contra hne
        rw [if_pos hne] at hok
        exact absurd hok (by simp)

/-- Helper: a successful Login records the authenticated entity and the
controller mode read at login time in the session. -/
theorem login_ok_state (srv : ApiServer.Server) (sess : ApiServer.Session)
    (cred : ApiServer.Credential) (sess' : ApiServer.Session) (tag : String)
    (h : ApiServer.login srv sess cred = (sess', Except.ok tag)) :
    sess'.entity = some tag ∧ sess'.chosenMode = some srv.mode := by
  unfold ApiServer.login at h
  cases he : sess.entity with
  | some e => rw [he] at h; simp at h
  | none =>
    rw [he] at h
    cases ha : ApiServer.authenticate srv.store cred with
    | error e => rw [ha] at h; simp at h
    | ok t =>
      rw [ha] at h
      dsimp only at h
      rw [Prod.ext_iff] at h
      obtain ⟨h1, h2⟩ := h
      dsimp only at h1 h2
      rw [Except.ok.injEq] at h2
      subst h2
      rw [← h1]
      exact ⟨rfl, rfl⟩

/-- Helper: Login on an already-authenticated session fails with
AlreadyLoggedIn and leaves the session untouched. -/
theorem login_on_authenticated (srv : ApiServer.Server)
    (sess : ApiServer.Session) (cred : ApiServer.Credential) (e : String)
    (h : sess.entity = some e) :
    ApiServer.login srv sess cred =
      (sess, Except.error ApiServer.ApiError.alreadyLoggedIn) := by
  unfold ApiServer.login
  rw [h]

/-- Helper: no Login attempt on an authenticated session ever succeeds. -/
theorem runLogins_auth_zero (srv : ApiServer.Server)
    (creds : List ApiServer.Credential) :
    ∀ (sess : ApiServer.Session) (e : String), sess.entity = some e →
      (ApiServer.runLogins srv sess creds).2 = 0 := by
  induction creds with
  | nil => intro sess e _; rfl
  | cons c cs ih =>
    intro sess e h
    unfold ApiServer.runLogins
    rw [login_on_authenticated srv sess c e h]
    dsimp only
    rw [ih sess e h]
    rfl

/-- C2: a login request asking for a version not present in the Admin Facade
Registry fails with UnsupportedVersion — for every server state, hence every
controller mode — and never yields a handler of another registered
version. -/
theorem unsupported_version_rejected (srv : ApiServer.Server) (v : Int)
    (h : srv.adminVersions.contains v = false) :
    ApiServer.selectAdminVersion srv v =
      Except.error ApiServer.ApiError.unsupportedVersion ∧
    ∀ w, ApiServer.selectAdminVersion srv v ≠ Except.ok w := by
  have hsel : ApiServer.selectAdminVersion srv v =
      Except.error ApiServer.ApiError.unsupportedVersion := by
    unfold ApiServer.selectAdminVersion
    rw [if_neg (by simpa using h)]
  exact ⟨hsel, fun w hw => by rw [hsel] at hw; simp at hw⟩

/-- C3: a password credential that matches no stored entity makes Login fail
with InvalidCredentials, and the session's entity field stays absent,
unchanged from before the call. -/
theorem login_invalid_credentials_unchanged (srv : ApiServer.Server)
    (sess : ApiServer.Session) (tag secret : String)
    (h1 : sess.entity = none)
    (h2 : ApiServer.passwordMatches srv.store tag secret = false) :
    ApiServer.login srv sess (ApiServer.Credential.password tag secret) =
      (sess, Except.error ApiServer.ApiError.invalidCredentials) ∧
    (ApiServer.login srv sess
        (ApiServer.Credential.password tag secret)).1.entity = none := by
  have ha : ApiServer.authenticate srv.store
      (ApiServer.Credential.password tag secret) =
      Except.error ApiServer.ApiError.invalidCredentials := by
    unfold ApiServer.authenticate
    unfold ApiServer.passwordMatches at h2
    dsimp only
    cases hl : ApiServer.lookupEntity srv.store tag with
    | none => rfl
    | some s =>
      dsimp only
      rw [hl] at h2
      dsimp only at h2
      rw [if_neg (of_decide_eq_false h2)]
  have hlog : ApiServer.login srv sess
      (ApiServer.Credential.password tag secret) =
      (sess, Except.error ApiServer.ApiError.invalidCredentials) := by
    unfold ApiServer.login
    rw [h1]
    dsimp only
    rw [ha]
  exact ⟨hlog, by rw [hlog]; exact h1⟩

/-- C4: Login on an already-authenticated Session fails with AlreadyLoggedIn
leaving the session untouched, and over any sequence of Login attempts at
most one ever succeeds on a given Session. -/
theorem login_at_most_once (srv : ApiServer.Server) (sess : ApiServer.Session)
    (cred : ApiServer.Credential) (e : String) (sess2 : ApiServer.Session)
    (creds : List ApiServer.Credential) :
    (sess.entity = some e →
      ApiServer.login srv sess cred =
        (sess, Except.error ApiServer.ApiError.alreadyLoggedIn)) ∧
    (ApiServer.runLogins srv sess2 creds).2 ≤ 1 := by
  refine ⟨fun h => login_on_authenticated srv sess cred e h, ?_⟩
  induction creds generalizing sess2 with
  | nil => exact Nat.zero_le 1
  | cons c cs ih =>
    unfold ApiServer.runLogins
    dsimp only
    cases hl : (ApiServer.login srv sess2 c).2 with
    | error err =>
      simp only [hl, Except.isOk, Except.toBool]
      simpa using ih (ApiServer.login srv sess2 c).1
    | ok t =>
      have hp : ApiServer.login srv sess2 c =
          ((ApiServer.login srv sess2 c).1, Except.ok t) := by
        rw [Prod.ext_iff]; exact ⟨rfl, hl⟩
      have hst := (login_ok_state srv sess2 c _ t hp).1
      have hz := runLogins_auth_zero srv cs (ApiServer.login srv sess2 c).1 t hst
      simp [hl, Except.isOk, Except.toBool, hz]

/-- C1: through a session authenticated while the controller mode was
Upgrading, a call on a (facade, method) pair outside the static allow-list
fails with UpgradeInProgress, and a call on an allow-listed pair returns
exactly the Normal-mode result — whatever the process-wide mode is at call
time. -/
theorem upgrading_allowlist_gating (srv : ApiServer.Server)
    (sess : ApiServer.Session) (cred : ApiServer.Credential)
    (sess' : ApiServer.Session) (tag : String) (f : ApiServer.Facades)
    (m : ApiServer.ControllerMode) (facade method : String)
    (h1 : srv.mode = ApiServer.ControllerMode.upgrading)
    (h2 : ApiServer.login srv sess cred = (sess', Except.ok tag)) :
    (ApiServer.allowedMethodsDuringUpgrades.contains (facade, method) = false →
      ApiServer.connDispatch f m sess' facade method =
        Except.error ApiServer.ApiError.upgradeInProgress) ∧
    (ApiServer.allowedMethodsDuringUpgrades.contains (facade, method) = true →
      ApiServer.connDispatch f m sess' facade method =
        ApiServer.dispatch f ApiServer.ControllerMode.normal facade method) := by
  have hm := (login_ok_state srv sess cred sess' tag h2).2
  rw [h1] at hm
  unfold ApiServer.connDispatch
  rw [hm]
  dsimp only
  constructor
  · intro h
    simp only [ApiServer.dispatch]
    rw [if_neg (by simpa using h)]
  · intro h
    simp only [ApiServer.dispatch]
    rw [if_pos (by simpa using h)]

/-- C5: a successful Login fixes the decorator chain from the mode read at
login time, and a later dispatched call through that session is independent
of the process-wide mode current at call time. -/
theorem decorator_chain_fixed_at_login (srv : ApiServer.Server)
    (sess : ApiServer.Session) (cred : ApiServer.Credential)
    (sess' : ApiServer.Session) (tag : String)
    (h : ApiServer.login srv sess cred = (sess', Except.ok tag)) :
    sess'.chosenMode = some srv.mode ∧
    ∀ (f : ApiServer.Facades) (m1 m2 : ApiServer.ControllerMode)
      (facade method : String),
      ApiServer.connDispatch f m1 sess' facade method =
        ApiServer.connDispatch f m2 sess' facade method := by
  have hm := (login_ok_state srv sess cred sess' tag h).2
  refine ⟨hm, fun f m1 m2 facade method => ?_⟩
  unfold ApiServer.connDispatch
  rw [hm]

/-- C6: a macaroon with an unresolved third-party caveat fails Login with
DischargeRequired carrying exactly that caveat; the same macaroon presented
with a discharge for the caveat succeeds, authenticating the identity the
macaroon declares. -/
theorem macaroon_discharge_roundtrip (srv : ApiServer.Server)
    (sess : ApiServer.Session) (mac : ApiServer.Macaroon) (c : String)
    (h1 : sess.entity = none)
    (h2 : mac.thirdPartyCaveats = [c]) :
    ApiServer.login srv sess (ApiServer.Credential.macaroons mac []) =
      (sess, Except.error (ApiServer.ApiError.dischargeRequired c)) ∧
    ApiServer.login srv sess (ApiServer.Credential.macaroons mac [c]) =
      ({ entity := some mac.identity, chosenMode := some srv.mode },
        Except.ok mac.identity) := by
  have ha1 : ApiServer.authenticate srv.store
      (ApiServer.Credential.macaroons mac []) =
      Except.error (ApiServer.ApiError.dischargeRequired c) := by
    unfold ApiServer.authenticate
    dsimp only
    rw [h2]
    simp [List.find?]
  have ha2 : ApiServer.authenticate srv.store
      (ApiServer.Credential.macaroons mac [c]) =
      Except.ok mac.identity := by
    unfold ApiServer.authenticate
    dsimp only
    rw [h2]
    simp [List.find?]
  constructor
  · unfold ApiServer.login; rw [h1]; dsimp only; rw [ha1]
  · unfold ApiServer.login; rw [h1]; dsimp only; rw [ha2]

/-- Helper: a run of admitted semaphore events keeps the in-flight count
within the limit. -/
theorem runOps_le (L : ApiServer.RateLimiter) :
    ∀ (ops : List ApiServer.LimOp) (s0 s : Nat),
      s0 ≤ L.limit → ApiServer.runOps L s0 ops = some s → s ≤ L.limit := by
  intro ops
  induction ops with
  | nil =>
    intro s0 s h0 h
    unfold ApiServer.runOps at h
    rw [Option.some.injEq] at h
    omega
  | cons op rest ih =>
    intro s0 s h0 h
    unfold ApiServer.runOps at h
    cases hstep : ApiServer.limStep L s0 op with
    | none => rw [hstep] at h; cases h
    | some s1 =>
      rw [hstep] at h
      refine ih s1 s ?_ h
      cases op with
      | acquire =>
        unfold ApiServer.limStep at hstep
        dsimp only at hstep
        split at hstep
        · rw [Option.some.injEq] at hstep; omega
        · cases hstep
      | release =>
        unfold ApiServer.limStep at hstep
        dsimp only at hstep
        split at hstep
        · rw [Option.some.injEq] at hstep; omega
        · cases hstep

/-- C7: the Login Rate Limiter admits at most `limit` concurrent in-flight
logins, and with limit 1 a second acquire is blocked while one login is in
flight, proceeding once the first releases its slot. -/
theorem login_rate_limiter_bounded (L : ApiServer.RateLimiter)
    (ops : List ApiServer.LimOp) (s : Nat) :
    (ApiServer.runOps L 0 ops = some s → s ≤ L.limit) ∧
    (L.limit = 1 →
      ApiServer.limStep L 1 ApiServer.LimOp.acquire = none ∧
      ApiServer.runOps L 1
        [ApiServer.LimOp.release, ApiServer.LimOp.acquire] = some 1) := by
  refine ⟨fun h => runOps_le L ops 0 s (Nat.zero_le _) h, fun h1 => ?_⟩
  cases L with
  | mk n =>
    dsimp only at h1
    subst h1
    exact ⟨rfl, rfl⟩

/-- A URL parser oracle that rejects one malformed endpoint. -/
def urlParseW : String → Except GoError Unit :=
  fun s =>
    if s = "::bad endpoint" then .error (GoError.msg "missing protocol scheme")
    else .ok ()

/-- A broker constructor oracle that always succeeds. -/
def brokerW : K8s.CloudSpec → Except GoError Unit := fun _ => .ok ()

/-- Cloud spec with an endpoint the parser rejects. -/
def specBadEndpoint : K8s.CloudSpec :=
  { endpoint := "::bad endpoint",
    credential := some { authType := "userpass" }, validateR := .ok () }

/-- Cloud spec with no credential. -/
def specNoCredential : K8s.CloudSpec :=
  { endpoint := "https://1.2.3.4:6443", credential := none,
    validateR := .ok () }

/-- Cloud spec with a credential of the wrong auth type. -/
def specBadAuthType : K8s.CloudSpec :=
  { endpoint := "https://1.2.3.4:6443",
    credential := some { authType := "oauth2" }, validateR := .ok () }

/-- Cloud spec passing all the checks. -/
def specGood : K8s.CloudSpec :=
  { endpoint := "https://1.2.3.4:6443",
    credential := some { authType := "userpass" }, validateR := .ok () }

/-- A model config with no storage sources set. -/
def cfgW : K8s.ModelConfig := { blockSource := none, fsSource := none }

/-- Witness for C10 at a bad-endpoint, a missing-credential, a wrong-auth-type
and a fully valid concrete cloud spec. -/
theorem k8s_open_prepare_validation_witness :
    (isErr (K8s.Open urlParseW brokerW specBadEndpoint) = true ∧
      isErr (K8s.PrepareConfig urlParseW specBadEndpoint cfgW) = true) ∧
    (isErr (K8s.Open urlParseW brokerW specNoCredential) = true ∧
      isErr (K8s.PrepareConfig urlParseW specNoCredential cfgW) = true) ∧
    (isErr (K8s.Open urlParseW brokerW specBadAuthType) = true ∧
      isErr (K8s.PrepareConfig urlParseW specBadAuthType cfgW) = true) ∧
    (isErr (urlParseW specGood.endpoint) = false ∧
      ∃ c, specGood.credential = some c ∧ c.authType = K8s.UserPassAuthType) :=
  ⟨(k8s_open_prepare_validation urlParseW brokerW specBadEndpoint cfgW).1 rfl,
   (k8s_open_prepare_validation urlParseW brokerW specNoCredential cfgW).2.1 rfl,
   (k8s_open_prepare_validation urlParseW brokerW specBadAuthType cfgW).2.2.1
     { authType := "oauth2" } rfl (by decide),
   (k8s_open_prepare_validation urlParseW brokerW specGood cfgW).2.2.2 rfl⟩

/-- A one-entity store for the apiserver witnesses. -/
def storeW : ApiServer.StateStore :=
  { entities := [("user-admin", "hunter2")] }

/-- A server in Upgrading mode with admin version 3 registered. -/
def srvUpgrading : ApiServer.Server :=
  { store := storeW, adminVersions := [3],
    mode := ApiServer.ControllerMode.upgrading }

/-- The password credential matching the stored entity. -/
def credAdmin : ApiServer.Credential :=
  ApiServer.Credential.password "user-admin" "hunter2"

/-- The session state right after the witness login under Upgrading mode. -/
def sessUpgraded : ApiServer.Session :=
  { entity := some "user-admin",
    chosenMode := some ApiServer.ControllerMode.upgrading }

/-- A facade table registering an allow-listed and a non-allow-listed
method. -/
def facadesW : ApiServer.Facades :=
  { methods := [("Client", "FullStatus"), ("Application", "Deploy")],
    run := fun fa me => fa ++ "." ++ me }

/-- Witness for C1: the freshly logged-in Upgrading session rejects
Application.Deploy with UpgradeInProgress and serves Client.FullStatus as
Normal mode would. -/
theorem upgrading_allowlist_gating_witness :
    (ApiServer.connDispatch facadesW ApiServer.ControllerMode.normal
        sessUpgraded "Application" "Deploy" =
      Except.error ApiServer.ApiError.upgradeInProgress) ∧
    (ApiServer.connDispatch facadesW ApiServer.ControllerMode.normal
        sessUpgraded "Client" "FullStatus" =
      ApiServer.dispatch facadesW ApiServer.ControllerMode.normal
        "Client" "FullStatus") :=
  ⟨(upgrading_allowlist_gating srvUpgrading ApiServer.Session.fresh credAdmin
      sessUpgraded "user-admin" facadesW ApiServer.ControllerMode.normal
      "Application" "Deploy" rfl rfl).1 rfl,
   (upgrading_allowlist_gating srvUpgrading ApiServer.Session.fresh credAdmin
      sessUpgraded "user-admin" facadesW ApiServer.ControllerMode.normal
      "Client" "FullStatus" rfl rfl).2 rfl⟩

/-- Witness for C2: version 2 is not registered and is rejected. -/
theorem unsupported_version_rejected_witness :
    ApiServer.selectAdminVersion srvUpgrading 2 =
      Except.error ApiServer.ApiError.unsupportedVersion :=
  (unsupported_version_rejected srvUpgrading 2 rfl).1

/-- Witness for C3: a wrong password fails and leaves the fresh session
unauthenticated. -/
theorem login_invalid_credentials_unchanged_witness :
    ApiServer.login srvUpgrading ApiServer.Session.fresh
        (ApiServer.Credential.password "user-admin" "wrong") =
      (ApiServer.Session.fresh,
        Except.error ApiServer.ApiError.invalidCredentials) ∧
    (ApiServer.login srvUpgrading ApiServer.Session.fresh
        (ApiServer.Credential.password "user-admin" "wrong")).1.entity =
      none :=
  login_invalid_credentials_unchanged srvUpgrading ApiServer.Session.fresh
    "user-admin" "wrong" rfl rfl

/-- Witness for C4: a re-login on the authenticated session fails with
AlreadyLoggedIn, and a two-attempt run from a fresh session has at most one
success. -/
theorem login_at_most_once_witness :
    ApiServer.login srvUpgrading sessUpgraded credAdmin =
      (sessUpgraded, Except.error ApiServer.ApiError.alreadyLoggedIn) ∧
    (ApiServer.runLogins srvUpgrading ApiServer.Session.fresh
        [credAdmin, credAdmin]).2 ≤ 1 :=
  ⟨(login_at_most_once srvUpgrading sessUpgraded credAdmin "user-admin"
      ApiServer.Session.fresh [credAdmin, credAdmin]).1 rfl,
   (login_at_most_once srvUpgrading sessUpgraded credAdmin "user-admin"
      ApiServer.Session.fresh [credAdmin, credAdmin]).2⟩

/-- Witness for C5: the witness login fixed the Upgrading decorator, and a
later call is the same whatever the mode is at call time. -/
theorem decorator_chain_fixed_at_login_witness :
    sessUpgraded.chosenMode = some srvUpgrading.mode ∧
    ApiServer.connDispatch facadesW ApiServer.ControllerMode.normal
        sessUpgraded "Client" "FullStatus" =
      ApiServer.connDispatch facadesW
        ApiServer.ControllerMode.restoreInProgress
        sessUpgraded "Client" "FullStatus" :=
  ⟨(decorator_chain_fixed_at_login srvUpgrading ApiServer.Session.fresh
      credAdmin sessUpgraded "user-admin" rfl).1,
   (decorator_chain_fixed_at_login srvUpgrading ApiServer.Session.fresh
      credAdmin sessUpgraded "user-admin" rfl).2 facadesW
     ApiServer.ControllerMode.normal
     ApiServer.ControllerMode.restoreInProgress "Client" "FullStatus"⟩

/-- A macaroon declaring the stored identity, with one third-party caveat. -/
def macW : ApiServer.Macaroon :=
  { identity := "user-admin", thirdPartyCaveats := ["is-member-of admins"] }

/-- Witness for C6: the undischarged macaroon yields DischargeRequired with
its caveat; adding the discharge authenticates the declared identity. -/
theorem macaroon_discharge_roundtrip_witness :
    ApiServer.login srvUpgrading ApiServer.Session.fresh
        (ApiServer.Credential.macaroons macW []) =
      (ApiServer.Session.fresh,
        Except.error
          (ApiServer.ApiError.dischargeRequired "is-member-of admins")) ∧
    ApiServer.login srvUpgrading ApiServer.Session.fresh
        (ApiServer.Credential.macaroons macW ["is-member-of admins"]) =
      ({ entity := some "user-admin",
         chosenMode := some ApiServer.ControllerMode.upgrading },
        Except.ok "user-admin") :=
  macaroon_discharge_roundtrip srvUpgrading ApiServer.Session.fresh macW
    "is-member-of admins" rfl rfl

/-- Witness for C7: with limit 1, an admitted acquire-release run stays within
the bound, the second acquire is blocked while one login is in flight, and
it proceeds after the release. -/
theorem login_rate_limiter_bounded_witness :
    ((0 : Nat) ≤ (ApiServer.RateLimiter.mk 1).limit) ∧
    ApiServer.limStep (ApiServer.RateLimiter.mk 1) 1
      ApiServer.LimOp.acquire = none ∧
    ApiServer.runOps (ApiServer.RateLimiter.mk 1) 1
      [ApiServer.LimOp.release, ApiServer.LimOp.acquire] = some 1 :=
  ⟨(login_rate_limiter_bounded (ApiServer.RateLimiter.mk 1)
      [ApiServer.LimOp.acquire, ApiServer.LimOp.release] 0).1 rfl,
   (login_rate_limiter_bounded (ApiServer.RateLimiter.mk 1)
      [ApiServer.LimOp.acquire, ApiServer.LimOp.release] 0).2 rfl⟩
